import Mathlib

/-!
Verification of the action vocabulary and CLI command resolver of
`zellij-utils/src/input/actions.rs`: the `Action` enum, its relaxed
equality `shallow_eq`, and `Action::actions_from_cli`, which maps one
parsed CLI command to an ordered list of actions or a diagnostic string.

Paths are modelled as strings with host (Unix) join semantics: joining an
absolute child onto a base replaces the base. Collaborator types that are
declared outside this file in the repository (`CliAction`, the layout
loader, `RunPluginLocation::parse`, the small data enums) are modelled
from the specification, as marked in their doc comments.
-/

namespace Zellij

/-- Model of `std::path::PathBuf`: a Unix-style path string. -/
abbrev PathBuf := String

/-- Test for an absolute path: the string starts with the separator `/`. -/
def PathBuf.isAbsolute (p : PathBuf) : Bool :=
  match p.data with
  | [] => false
  | c :: _ => c = '/'

/-- Test modelling Rust `Path::is_relative`. -/
def PathBuf.isRelative (p : PathBuf) : Bool :=
  !(PathBuf.isAbsolute p)

/-- Model of `PathBuf::join` under host path-joining semantics: joining an
absolute child path onto a base entirely replaces the base; a relative
child is appended after a separator. -/
def PathBuf.join (base child : PathBuf) : PathBuf :=
  if PathBuf.isAbsolute child then child else base ++ "/" ++ child

/-- Model of Rust `str::as_bytes` followed by `to_vec`: the UTF-8 bytes of
a string, as natural numbers. -/
def strBytes (s : String) : List Nat :=
  s.data.flatMap (fun c => (String.utf8EncodeChar c).map (fun b => b.toNat))

/-- Modelled from the spec: the 4-way compass enum `Direction` of
`zellij-utils/src/data.rs`, which is not under the sources provided. -/
inductive Direction where
  | Left
  | Right
  | Up
  | Down
deriving DecidableEq, Repr

/-- Modelled from the spec: the closed enumeration of input modes
(`InputMode` of `zellij-utils/src/data.rs`, not under the sources
provided). The claims treat it as an opaque closed enumeration. -/
inductive InputMode where
  | Normal
  | Locked
  | Resize
  | Pane
  | Tab
  | Scroll
  | EnterSearch
  | Search
  | RenameTab
  | RenamePane
  | Session
  | Move
  | Prompt
  | Tmux
deriving DecidableEq, Repr

/-- Modelled from the spec: the `Resize` payload enum of
`zellij-utils/src/data.rs`, not under the sources provided; treated as an
opaque closed enumeration by every claim. -/
inductive Resize where
  | Increase
  | Decrease
deriving DecidableEq, Repr

/-- Two-way search direction, from `actions.rs`. -/
inductive SearchDirection where
  | Down
  | Up
deriving DecidableEq, Repr

/-- Search option toggles, from `actions.rs`. -/
inductive SearchOption where
  | CaseSensitivity
  | WholeWord
  | Wrap
deriving DecidableEq, Repr

/-- Modelled from the spec: a 2-D coordinate (`Position` of
`zellij-utils/src/position.rs`, not under the sources provided). -/
structure Position where
  line : Int
  column : Int
deriving DecidableEq, Repr

/-- Modelled from the spec: a resolved, typed plugin reference
(scheme plus path or URL); `RunPluginLocation` of the layout module is not
under the sources provided. -/
inductive RunPluginLocation where
  | zellij (tag : String)
  | file (path : PathBuf)
deriving DecidableEq, Repr

/-- Modelled from the spec: `RunPluginLocation::parse` resolves the
supplied URL or path against the current working directory into a typed
plugin-location value; malformed locations fail with a diagnostic string
naming the offending input. A `zellij:` URL names a builtin tag; a `file:`
URL names a path, anchored under the working directory when relative. -/
def RunPluginLocation.parse (location : String) (cwd : Option PathBuf) :
    Except String RunPluginLocation :=
  if "zellij:".data.isPrefixOf location.data then
    Except.ok (RunPluginLocation.zellij (String.mk (location.data.drop 7)))
  else if "file:".data.isPrefixOf location.data then
    let p : PathBuf := String.mk (location.data.drop 5)
    match cwd with
    | some c =>
        if PathBuf.isRelative p then Except.ok (RunPluginLocation.file (PathBuf.join c p))
        else Except.ok (RunPluginLocation.file p)
    | none => Except.ok (RunPluginLocation.file p)
  else
    Except.error ("Invalid plugin location: " ++ location)

/-- Modelled from the spec and the construction sites in `actions.rs`:
`RunPlugin` carries a resolved location and an exec-host flag. -/
structure RunPlugin where
  location : RunPluginLocation
  allow_exec_host_cmd : Bool
deriving DecidableEq, Repr

/-- Modelled from the spec (run-command descriptor) and the construction
site in `actions.rs` lines 318-325: resolved executable, arguments,
working directory, direction, and the two hold flags. -/
structure RunCommandAction where
  command : PathBuf
  args : List String
  cwd : Option PathBuf
  direction : Option Direction
  hold_on_close : Bool
  hold_on_start : Bool
deriving DecidableEq, Repr

/-- Modelled from the spec: an externally-produced pane tree, treated as
an opaque payload by every claim; an identifier stands in for the tree. -/
structure TiledPaneLayout where
  id : Nat
deriving DecidableEq, Repr

/-- Modelled from the spec: a floating-pane description, treated as an
opaque payload by every claim. -/
structure FloatingPaneLayout where
  id : Nat
deriving DecidableEq, Repr

/-- Modelled from the spec: an alternate tiled pane arrangement, treated
as an opaque payload by every claim. -/
structure SwapTiledLayout where
  id : Nat
deriving DecidableEq, Repr

/-- Modelled from the spec: an alternate floating pane arrangement,
treated as an opaque payload by every claim. -/
structure SwapFloatingLayout where
  id : Nat
deriving DecidableEq, Repr

/-- Modelled from the spec: the already-parsed layout description returned
by the layout collaborator. It defines a list of tabs (each an optional
name, a pane tree and a floating-pane list), a root template from which a
fresh single tab can be derived, and the swap-layout lists. -/
structure Layout where
  tabs_list : List (Option String × TiledPaneLayout × List FloatingPaneLayout)
  template : TiledPaneLayout
  template_floating : List FloatingPaneLayout
  swap_tiled_layouts : List SwapTiledLayout
  swap_floating_layouts : List SwapFloatingLayout
deriving DecidableEq, Repr

/-- Model of `Layout::tabs()`: the list of tabs the description defines. -/
def Layout.tabs (l : Layout) :
    List (Option String × TiledPaneLayout × List FloatingPaneLayout) :=
  l.tabs_list

/-- Modelled from the spec: `Layout::new_tab()` derives a fresh single-tab
layout (pane tree and floating-pane list) from the description root. -/
def Layout.new_tab (l : Layout) : TiledPaneLayout × List FloatingPaneLayout :=
  (l.template, l.template_floating)

/-- Modelled from the spec: the slice of the configuration options that
the resolver reads (`config.options.layout_dir`). -/
structure ConfigOptions where
  layout_dir : Option PathBuf
deriving DecidableEq, Repr

/-- Modelled from the spec: an immutable configuration snapshot supplying
a fallback layout-search directory. -/
structure Config where
  options : ConfigOptions
deriving DecidableEq, Repr

/-- Modelled from the spec: one externally-parsed CLI command. The variant
payloads follow the fields destructured by `actions_from_cli` in
`actions.rs` (the `CliAction` enum of `zellij-utils/src/cli.rs` is not
under the sources provided). -/
inductive CliAction where
  | Write (bytes : List Nat)
  | WriteChars (chars : String)
  | Resize (resize : Resize) (direction : Option Direction)
  | FocusNextPane
  | FocusPreviousPane
  | MoveFocus (direction : Direction)
  | MoveFocusOrTab (direction : Direction)
  | MovePane (direction : Option Direction)
  | MovePaneBackwards
  | Clear
  | DumpScreen (path : PathBuf) (full : Bool)
  | EditScrollback
  | ScrollUp
  | ScrollDown
  | ScrollToBottom
  | ScrollToTop
  | PageScrollUp
  | PageScrollDown
  | HalfPageScrollUp
  | HalfPageScrollDown
  | ToggleFullscreen
  | TogglePaneFrames
  | ToggleActiveSyncTab
  | NewPane (direction : Option Direction) (command : List String)
      (plugin : Option String) (cwd : Option PathBuf) (floating : Bool)
      (name : Option String) (close_on_exit : Bool) (start_suspended : Bool)
  | Edit (direction : Option Direction) (file : PathBuf)
      (line_number : Option Nat) (floating : Bool) (cwd : Option PathBuf)
  | SwitchMode (input_mode : InputMode)
  | TogglePaneEmbedOrFloating
  | ToggleFloatingPanes
  | ClosePane
  | RenamePane (name : String)
  | UndoRenamePane
  | GoToNextTab
  | GoToPreviousTab
  | CloseTab
  | GoToTab (index : Nat)
  | GoToTabName (name : String) (create : Bool)
  | RenameTab (name : String)
  | UndoRenameTab
  | NewTab (name : Option String) (layout : Option PathBuf)
      (layout_dir : Option PathBuf) (cwd : Option PathBuf)
  | PreviousSwapLayout
  | NextSwapLayout
  | QueryTabNames
  | StartOrReloadPlugin (url : String)
  | LaunchOrFocusPlugin (url : String) (floating : Bool)
deriving DecidableEq, Repr

/-- Helper tree type into which values are injectively encoded; it is
used only to obtain decidable equality of `Action` (mirroring the derived
structural `PartialEq` of the Rust enum) with proofs whose size is linear
in the number of variants. -/
inductive ETree where
  | n (v : Nat)
  | s (v : String)
  | node (l r : ETree)
deriving DecidableEq

/-- Encoder for `Bool` into `ETree`. -/
def eBool (b : Bool) : ETree := ETree.n (cond b 1 0)

/-- Decoder for `Bool` from `ETree`. -/
def dBool : ETree → Option Bool
  | ETree.n 0 => some false
  | ETree.n 1 => some true
  | _ => none

@[simp]
theorem dBool_eBool (b : Bool) : dBool (eBool b) = some b := by
  cases b <;> rfl

/-- Encoder for `Nat` into `ETree`. -/
def eNat (v : Nat) : ETree := ETree.n v

/-- Decoder for `Nat` from `ETree`. -/
def dNat : ETree → Option Nat
  | ETree.n v => some v
  | _ => none

@[simp]
theorem dNat_eNat (v : Nat) : dNat (eNat v) = some v := rfl

/-- Encoder for `String` into `ETree`. -/
def eStr (v : String) : ETree := ETree.s v

/-- Decoder for `String` from `ETree`. -/
def dStr : ETree → Option String
  | ETree.s v => some v
  | _ => none

@[simp]
theorem dStr_eStr (v : String) : dStr (eStr v) = some v := rfl

/-- Encoder for `Int` into `ETree`, as a pair of natural numbers. -/
def eInt (i : Int) : ETree := ETree.node (ETree.n i.toNat) (ETree.n (-i).toNat)

/-- Decoder for `Int` from `ETree`. -/
def dInt : ETree → Option Int
  | ETree.node (ETree.n p) (ETree.n q) => some ((p : Int) - (q : Int))
  | _ => none

@[simp]
theorem dInt_eInt (i : Int) : dInt (eInt i) = some i := by
  simp only [eInt, dInt]
  congr 1
  omega

/-- Encoder combinator for `Option`. -/
def eOpt (f : α → ETree) : Option α → ETree
  | none => ETree.n 0
  | some x => ETree.node (ETree.n 1) (f x)

/-- Decoder combinator for `Option`. -/
def dOpt (f : ETree → Option α) : ETree → Option (Option α)
  | ETree.n 0 => some none
  | ETree.node (ETree.n 1) t => (f t).map some
  | _ => none

theorem dOpt_eOpt (e : α → ETree) (f : ETree → Option α)
    (h : ∀ x, f (e x) = some x) (o : Option α) : dOpt f (eOpt e o) = some o := by
  cases o <;> simp [eOpt, dOpt, h]

/-- Encoder combinator for `List`. -/
def eList (f : α → ETree) : List α → ETree
  | [] => ETree.n 0
  | x :: xs => ETree.node (f x) (eList f xs)

/-- Decoder combinator for `List`. -/
def dList (f : ETree → Option α) : ETree → Option (List α)
  | ETree.n 0 => some []
  | ETree.node hd tl =>
      match f hd, dList f tl with
      | some x, some xs => some (x :: xs)
      | _, _ => none
  | _ => none

theorem dList_eList (e : α → ETree) (f : ETree → Option α)
    (h : ∀ x, f (e x) = some x) (l : List α) : dList f (eList e l) = some l := by
  induction l with
  | nil => rfl
  | cons x xs ih => simp [eList, dList, h, ih]

/-- Encoder for `InputMode`. -/
def eInputMode : InputMode → ETree
  | InputMode.Normal => ETree.n 0
  | InputMode.Locked => ETree.n 1
  | InputMode.Resize => ETree.n 2
  | InputMode.Pane => ETree.n 3
  | InputMode.Tab => ETree.n 4
  | InputMode.Scroll => ETree.n 5
  | InputMode.EnterSearch => ETree.n 6
  | InputMode.Search => ETree.n 7
  | InputMode.RenameTab => ETree.n 8
  | InputMode.RenamePane => ETree.n 9
  | InputMode.Session => ETree.n 10
  | InputMode.Move => ETree.n 11
  | InputMode.Prompt => ETree.n 12
  | InputMode.Tmux => ETree.n 13

/-- Decoder for `InputMode`. -/
def dInputMode : ETree → Option InputMode
  | ETree.n 0 => some InputMode.Normal
  | ETree.n 1 => some InputMode.Locked
  | ETree.n 2 => some InputMode.Resize
  | ETree.n 3 => some InputMode.Pane
  | ETree.n 4 => some InputMode.Tab
  | ETree.n 5 => some InputMode.Scroll
  | ETree.n 6 => some InputMode.EnterSearch
  | ETree.n 7 => some InputMode.Search
  | ETree.n 8 => some InputMode.RenameTab
  | ETree.n 9 => some InputMode.RenamePane
  | ETree.n 10 => some InputMode.Session
  | ETree.n 11 => some InputMode.Move
  | ETree.n 12 => some InputMode.Prompt
  | ETree.n 13 => some InputMode.Tmux
  | _ => none

@[simp]
theorem dInputMode_eInputMode (m : InputMode) : dInputMode (eInputMode m) = some m := by
  cases m <;> rfl

/-- Encoder for `Direction`. -/
def eDirection : Direction → ETree
  | Direction.Left => ETree.n 0
  | Direction.Right => ETree.n 1
  | Direction.Up => ETree.n 2
  | Direction.Down => ETree.n 3

/-- Decoder for `Direction`. -/
def dDirection : ETree → Option Direction
  | ETree.n 0 => some Direction.Left
  | ETree.n 1 => some Direction.Right
  | ETree.n 2 => some Direction.Up
  | ETree.n 3 => some Direction.Down
  | _ => none

@[simp]
theorem dDirection_eDirection (d : Direction) : dDirection (eDirection d) = some d := by
  cases d <;> rfl

/-- Encoder for `Resize`. -/
def eResize : Resize → ETree
  | Resize.Increase => ETree.n 0
  | Resize.Decrease => ETree.n 1

/-- Decoder for `Resize`. -/
def dResize : ETree → Option Resize
  | ETree.n 0 => some Resize.Increase
  | ETree.n 1 => some Resize.Decrease
  | _ => none

@[simp]
theorem dResize_eResize (r : Resize) : dResize (eResize r) = some r := by
  cases r <;> rfl

/-- Encoder for `SearchDirection`. -/
def eSearchDirection : SearchDirection → ETree
  | SearchDirection.Down => ETree.n 0
  | SearchDirection.Up => ETree.n 1

/-- Decoder for `SearchDirection`. -/
def dSearchDirection : ETree → Option SearchDirection
  | ETree.n 0 => some SearchDirection.Down
  | ETree.n 1 => some SearchDirection.Up
  | _ => none

@[simp]
theorem dSearchDirection_eSearchDirection (d : SearchDirection) :
    dSearchDirection (eSearchDirection d) = some d := by
  cases d <;> rfl

/-- Encoder for `SearchOption`. -/
def eSearchOption : SearchOption → ETree
  | SearchOption.CaseSensitivity => ETree.n 0
  | SearchOption.WholeWord => ETree.n 1
  | SearchOption.Wrap => ETree.n 2

/-- Decoder for `SearchOption`. -/
def dSearchOption : ETree → Option SearchOption
  | ETree.n 0 => some SearchOption.CaseSensitivity
  | ETree.n 1 => some SearchOption.WholeWord
  | ETree.n 2 => some SearchOption.Wrap
  | _ => none

@[simp]
theorem dSearchOption_eSearchOption (o : SearchOption) :
    dSearchOption (eSearchOption o) = some o := by
  cases o <;> rfl

/-- Encoder for `Position`. -/
def ePosition (p : Position) : ETree := ETree.node (eInt p.line) (eInt p.column)

/-- Decoder for `Position`. -/
def dPosition : ETree → Option Position
  | ETree.node a b => do
      let line ← dInt a
      let column ← dInt b
      pure { line := line, column := column }
  | _ => none

@[simp]
theorem dPosition_ePosition (p : Position) : dPosition (ePosition p) = some p := by
  cases p
  simp [ePosition, dPosition]

/-- Encoder for `RunPluginLocation`. -/
def eRunPluginLocation : RunPluginLocation → ETree
  | RunPluginLocation.zellij t => ETree.node (ETree.n 0) (eStr t)
  | RunPluginLocation.file p => ETree.node (ETree.n 1) (eStr p)

/-- Decoder for `RunPluginLocation`. -/
def dRunPluginLocation : ETree → Option RunPluginLocation
  | ETree.node (ETree.n 0) t => (dStr t).map RunPluginLocation.zellij
  | ETree.node (ETree.n 1) t => (dStr t).map RunPluginLocation.file
  | _ => none

@[simp]
theorem dRunPluginLocation_eRunPluginLocation (l : RunPluginLocation) :
    dRunPluginLocation (eRunPluginLocation l) = some l := by
  cases l <;> rfl

/-- Encoder for `RunPlugin`. -/
def eRunPlugin (r : RunPlugin) : ETree :=
  ETree.node (eRunPluginLocation r.location) (eBool r.allow_exec_host_cmd)

/-- Decoder for `RunPlugin`. -/
def dRunPlugin : ETree → Option RunPlugin
  | ETree.node a b => do
      let location ← dRunPluginLocation a
      let flag ← dBool b
      pure { location := location, allow_exec_host_cmd := flag }
  | _ => none

@[simp]
theorem dRunPlugin_eRunPlugin (r : RunPlugin) : dRunPlugin (eRunPlugin r) = some r := by
  cases r
  simp [eRunPlugin, dRunPlugin]

/-- Encoder for `RunCommandAction`. -/
def eRunCommandAction (r : RunCommandAction) : ETree :=
  ETree.node (eStr r.command)
    (ETree.node (eList eStr r.args)
      (ETree.node (eOpt eStr r.cwd)
        (ETree.node (eOpt eDirection r.direction)
          (ETree.node (eBool r.hold_on_close) (eBool r.hold_on_start)))))

/-- Decoder for `RunCommandAction`. -/
def dRunCommandAction : ETree → Option RunCommandAction
  | ETree.node c (ETree.node a (ETree.node w (ETree.node d (ETree.node hc hs)))) => do
      let command ← dStr c
      let args ← dList dStr a
      let cwd ← dOpt dStr w
      let direction ← dOpt dDirection d
      let hold_on_close ← dBool hc
      let hold_on_start ← dBool hs
      pure { command := command, args := args, cwd := cwd, direction := direction,
             hold_on_close := hold_on_close, hold_on_start := hold_on_start }
  | _ => none

@[simp]
theorem dList_eList_str (l : List String) : dList dStr (eList eStr l) = some l :=
  dList_eList eStr dStr (fun _ => rfl) l

@[simp]
theorem dOpt_eOpt_str (o : Option String) : dOpt dStr (eOpt eStr o) = some o :=
  dOpt_eOpt eStr dStr (fun _ => rfl) o

@[simp]
theorem dOpt_eOpt_nat (o : Option Nat) : dOpt dNat (eOpt eNat o) = some o :=
  dOpt_eOpt eNat dNat (fun _ => rfl) o

@[simp]
theorem dOpt_eOpt_direction (o : Option Direction) :
    dOpt dDirection (eOpt eDirection o) = some o :=
  dOpt_eOpt eDirection dDirection dDirection_eDirection o

@[simp]
theorem dList_eList_nat (l : List Nat) : dList dNat (eList eNat l) = some l :=
  dList_eList eNat dNat (fun _ => rfl) l

@[simp]
theorem dRunCommandAction_eRunCommandAction (r : RunCommandAction) :
    dRunCommandAction (eRunCommandAction r) = some r := by
  cases r
  simp [eRunCommandAction, dRunCommandAction]

@[simp]
theorem dOpt_eOpt_rca (o : Option RunCommandAction) :
    dOpt dRunCommandAction (eOpt eRunCommandAction o) = some o :=
  dOpt_eOpt eRunCommandAction dRunCommandAction dRunCommandAction_eRunCommandAction o

/-- Encoder for `TiledPaneLayout`. -/
def eTPL (t : TiledPaneLayout) : ETree := ETree.n t.id

/-- Decoder for `TiledPaneLayout`. -/
def dTPL : ETree → Option TiledPaneLayout
  | ETree.n v => some { id := v }
  | _ => none

@[simp]
theorem dTPL_eTPL (t : TiledPaneLayout) : dTPL (eTPL t) = some t := by
  cases t
  rfl

/-- Encoder for `FloatingPaneLayout`. -/
def eFPL (t : FloatingPaneLayout) : ETree := ETree.n t.id

/-- Decoder for `FloatingPaneLayout`. -/
def dFPL : ETree → Option FloatingPaneLayout
  | ETree.n v => some { id := v }
  | _ => none

@[simp]
theorem dFPL_eFPL (t : FloatingPaneLayout) : dFPL (eFPL t) = some t := by
  cases t
  rfl

/-- Encoder for `SwapTiledLayout`. -/
def eSTL (t : SwapTiledLayout) : ETree := ETree.n t.id

/-- Decoder for `SwapTiledLayout`. -/
def dSTL : ETree → Option SwapTiledLayout
  | ETree.n v => some { id := v }
  | _ => none

@[simp]
theorem dSTL_eSTL (t : SwapTiledLayout) : dSTL (eSTL t) = some t := by
  cases t
  rfl

/-- Encoder for `SwapFloatingLayout`. -/
def eSFL (t : SwapFloatingLayout) : ETree := ETree.n t.id

/-- Decoder for `SwapFloatingLayout`. -/
def dSFL : ETree → Option SwapFloatingLayout
  | ETree.n v => some { id := v }
  | _ => none

@[simp]
theorem dSFL_eSFL (t : SwapFloatingLayout) : dSFL (eSFL t) = some t := by
  cases t
  rfl

@[simp]
theorem dOpt_eOpt_tpl (o : Option TiledPaneLayout) : dOpt dTPL (eOpt eTPL o) = some o :=
  dOpt_eOpt eTPL dTPL dTPL_eTPL o

@[simp]
theorem dList_eList_fpl (l : List FloatingPaneLayout) : dList dFPL (eList eFPL l) = some l :=
  dList_eList eFPL dFPL dFPL_eFPL l

@[simp]
theorem dOpt_eOpt_list_stl (o : Option (List SwapTiledLayout)) :
    dOpt (dList dSTL) (eOpt (eList eSTL) o) = some o :=
  dOpt_eOpt (eList eSTL) (dList dSTL) (dList_eList eSTL dSTL dSTL_eSTL) o

@[simp]
theorem dOpt_eOpt_list_sfl (o : Option (List SwapFloatingLayout)) :
    dOpt (dList dSFL) (eOpt (eList eSFL) o) = some o :=
  dOpt_eOpt (eList eSFL) (dList dSFL) (dList_eList eSFL dSFL dSFL_eSFL) o

/-- Actions that can be bound to keys: the closed vocabulary of
multiplexer intents, transcribed variant by variant from the `Action`
enum of `actions.rs` lines 99-236. -/
inductive Action where
  | Quit
  | Write (bytes : List Nat)
  | WriteChars (chars : String)
  | SwitchToMode (mode : InputMode)
  | SwitchModeForAllClients (mode : InputMode)
  | Resize (resize : Resize) (direction : Option Direction)
  | FocusNextPane
  | FocusPreviousPane
  | SwitchFocus
  | MoveFocus (direction : Direction)
  | MoveFocusOrTab (direction : Direction)
  | MovePane (direction : Option Direction)
  | MovePaneBackwards
  | ClearScreen
  | DumpScreen (path : String) (full : Bool)
  | EditScrollback
  | ScrollUp
  | ScrollUpAt (position : Position)
  | ScrollDown
  | ScrollDownAt (position : Position)
  | ScrollToBottom
  | ScrollToTop
  | PageScrollUp
  | PageScrollDown
  | HalfPageScrollUp
  | HalfPageScrollDown
  | ToggleFocusFullscreen
  | TogglePaneFrames
  | ToggleActiveSyncTab
  | NewPane (direction : Option Direction) (name : Option String)
  | EditFile (file : PathBuf) (line_number : Option Nat)
      (cwd : Option PathBuf) (direction : Option Direction) (floating : Bool)
  | NewFloatingPane (run : Option RunCommandAction) (name : Option String)
  | NewTiledPane (direction : Option Direction)
      (run : Option RunCommandAction) (name : Option String)
  | TogglePaneEmbedOrFloating
  | ToggleFloatingPanes
  | CloseFocus
  | PaneNameInput (bytes : List Nat)
  | UndoRenamePane
  | NewTab (tiled_layout : Option TiledPaneLayout)
      (floating_layouts : List FloatingPaneLayout)
      (swap_tiled : Option (List SwapTiledLayout))
      (swap_floating : Option (List SwapFloatingLayout))
      (name : Option String)
  | NoOp
  | GoToNextTab
  | GoToPreviousTab
  | CloseTab
  | GoToTab (index : Nat)
  | GoToTabName (name : String) (create : Bool)
  | ToggleTab
  | TabNameInput (bytes : List Nat)
  | UndoRenameTab
  | Run (command : RunCommandAction)
  | Detach
  | LeftClick (position : Position)
  | RightClick (position : Position)
  | MiddleClick (position : Position)
  | LaunchOrFocusPlugin (plugin : RunPlugin) (should_float : Bool)
  | LeftMouseRelease (position : Position)
  | RightMouseRelease (position : Position)
  | MiddleMouseRelease (position : Position)
  | MouseHoldLeft (position : Position)
  | MouseHoldRight (position : Position)
  | MouseHoldMiddle (position : Position)
  | Copy
  | Confirm
  | Deny
  | SkipConfirm (action : Action)
  | SearchInput (bytes : List Nat)
  | Search (direction : SearchDirection)
  | SearchToggleOption (option : SearchOption)
  | ToggleMouseMode
  | PreviousSwapLayout
  | NextSwapLayout
  | QueryTabNames
  | NewTiledPluginPane (location : RunPluginLocation) (name : Option String)
  | NewFloatingPluginPane (location : RunPluginLocation) (name : Option String)
  | StartOrReloadPlugin (plugin : RunPlugin)

/-- Injective encoding of `Action` into `ETree`, used only to build the
decidable-equality instance below. -/
def eAction : Action → ETree
  | Action.Quit => ETree.n 0
  | Action.Write bytes => ETree.node (ETree.n 1) (eList eNat bytes)
  | Action.WriteChars chars => ETree.node (ETree.n 2) (eStr chars)
  | Action.SwitchToMode mode => ETree.node (ETree.n 3) (eInputMode mode)
  | Action.SwitchModeForAllClients mode => ETree.node (ETree.n 4) (eInputMode mode)
  | Action.Resize resize direction => ETree.node (ETree.n 5) (ETree.node (eResize resize) (eOpt eDirection direction))
  | Action.FocusNextPane => ETree.n 6
  | Action.FocusPreviousPane => ETree.n 7
  | Action.SwitchFocus => ETree.n 8
  | Action.MoveFocus direction => ETree.node (ETree.n 9) (eDirection direction)
  | Action.MoveFocusOrTab direction => ETree.node (ETree.n 10) (eDirection direction)
  | Action.MovePane direction => ETree.node (ETree.n 11) (eOpt eDirection direction)
  | Action.MovePaneBackwards => ETree.n 12
  | Action.ClearScreen => ETree.n 13
  | Action.DumpScreen path full => ETree.node (ETree.n 14) (ETree.node (eStr path) (eBool full))
  | Action.EditScrollback => ETree.n 15
  | Action.ScrollUp => ETree.n 16
  | Action.ScrollUpAt position => ETree.node (ETree.n 17) (ePosition position)
  | Action.ScrollDown => ETree.n 18
  | Action.ScrollDownAt position => ETree.node (ETree.n 19) (ePosition position)
  | Action.ScrollToBottom => ETree.n 20
  | Action.ScrollToTop => ETree.n 21
  | Action.PageScrollUp => ETree.n 22
  | Action.PageScrollDown => ETree.n 23
  | Action.HalfPageScrollUp => ETree.n 24
  | Action.HalfPageScrollDown => ETree.n 25
  | Action.ToggleFocusFullscreen => ETree.n 26
  | Action.TogglePaneFrames => ETree.n 27
  | Action.ToggleActiveSyncTab => ETree.n 28
  | Action.NewPane direction name => ETree.node (ETree.n 29) (ETree.node (eOpt eDirection direction) (eOpt eStr name))
  | Action.EditFile file line_number cwd direction floating => ETree.node (ETree.n 30) (ETree.node (eStr file) (ETree.node (eOpt eNat line_number) (ETree.node (eOpt eStr cwd) (ETree.node (eOpt eDirection direction) (eBool floating)))))
  | Action.NewFloatingPane run name => ETree.node (ETree.n 31) (ETree.node (eOpt eRunCommandAction run) (eOpt eStr name))
  | Action.NewTiledPane direction run name => ETree.node (ETree.n 32) (ETree.node (eOpt eDirection direction) (ETree.node (eOpt eRunCommandAction run) (eOpt eStr name)))
  | Action.TogglePaneEmbedOrFloating => ETree.n 33
  | Action.ToggleFloatingPanes => ETree.n 34
  | Action.CloseFocus => ETree.n 35
  | Action.PaneNameInput bytes => ETree.node (ETree.n 36) (eList eNat bytes)
  | Action.UndoRenamePane => ETree.n 37
  | Action.NewTab tiled_layout floating_layouts swap_tiled swap_floating name => ETree.node (ETree.n 38) (ETree.node (eOpt eTPL tiled_layout) (ETree.node (eList eFPL floating_layouts) (ETree.node (eOpt (eList eSTL) swap_tiled) (ETree.node (eOpt (eList eSFL) swap_floating) (eOpt eStr name)))))
  | Action.NoOp => ETree.n 39
  | Action.GoToNextTab => ETree.n 40
  | Action.GoToPreviousTab => ETree.n 41
  | Action.CloseTab => ETree.n 42
  | Action.GoToTab index => ETree.node (ETree.n 43) (eNat index)
  | Action.GoToTabName name create => ETree.node (ETree.n 44) (ETree.node (eStr name) (eBool create))
  | Action.ToggleTab => ETree.n 45
  | Action.TabNameInput bytes => ETree.node (ETree.n 46) (eList eNat bytes)
  | Action.UndoRenameTab => ETree.n 47
  | Action.Run command => ETree.node (ETree.n 48) (eRunCommandAction command)
  | Action.Detach => ETree.n 49
  | Action.LeftClick position => ETree.node (ETree.n 50) (ePosition position)
  | Action.RightClick position => ETree.node (ETree.n 51) (ePosition position)
  | Action.MiddleClick position => ETree.node (ETree.n 52) (ePosition position)
  | Action.LaunchOrFocusPlugin plugin should_float => ETree.node (ETree.n 53) (ETree.node (eRunPlugin plugin) (eBool should_float))
  | Action.LeftMouseRelease position => ETree.node (ETree.n 54) (ePosition position)
  | Action.RightMouseRelease position => ETree.node (ETree.n 55) (ePosition position)
  | Action.MiddleMouseRelease position => ETree.node (ETree.n 56) (ePosition position)
  | Action.MouseHoldLeft position => ETree.node (ETree.n 57) (ePosition position)
  | Action.MouseHoldRight position => ETree.node (ETree.n 58) (ePosition position)
  | Action.MouseHoldMiddle position => ETree.node (ETree.n 59) (ePosition position)
  | Action.Copy => ETree.n 60
  | Action.Confirm => ETree.n 61
  | Action.Deny => ETree.n 62
  | Action.SkipConfirm action => ETree.node (ETree.n 63) (eAction action)
  | Action.SearchInput bytes => ETree.node (ETree.n 64) (eList eNat bytes)
  | Action.Search direction => ETree.node (ETree.n 65) (eSearchDirection direction)
  | Action.SearchToggleOption option => ETree.node (ETree.n 66) (eSearchOption option)
  | Action.ToggleMouseMode => ETree.n 67
  | Action.PreviousSwapLayout => ETree.n 68
  | Action.NextSwapLayout => ETree.n 69
  | Action.QueryTabNames => ETree.n 70
  | Action.NewTiledPluginPane location name => ETree.node (ETree.n 71) (ETree.node (eRunPluginLocation location) (eOpt eStr name))
  | Action.NewFloatingPluginPane location name => ETree.node (ETree.n 72) (ETree.node (eRunPluginLocation location) (eOpt eStr name))
  | Action.StartOrReloadPlugin plugin => ETree.node (ETree.n 73) (eRunPlugin plugin)

/-- Decoder for the `Write` payload. -/
def decWrite : ETree → Option Action
  | p0 => do
      let bytes ← dList dNat p0
      pure (Action.Write bytes)

/-- Decoder for the `WriteChars` payload. -/
def decWriteChars : ETree → Option Action
  | p0 => do
      let chars ← dStr p0
      pure (Action.WriteChars chars)

/-- Decoder for the `SwitchToMode` payload. -/
def decSwitchToMode : ETree → Option Action
  | p0 => do
      let mode ← dInputMode p0
      pure (Action.SwitchToMode mode)

/-- Decoder for the `SwitchModeForAllClients` payload. -/
def decSwitchModeForAllClients : ETree → Option Action
  | p0 => do
      let mode ← dInputMode p0
      pure (Action.SwitchModeForAllClients mode)

/-- Decoder for the `Resize` payload. -/
def decResize : ETree → Option Action
  | (ETree.node p0 p1) => do
      let resize ← dResize p0
      let direction ← dOpt dDirection p1
      pure (Action.Resize resize direction)
  | _ => none

/-- Decoder for the `MoveFocus` payload. -/
def decMoveFocus : ETree → Option Action
  | p0 => do
      let direction ← dDirection p0
      pure (Action.MoveFocus direction)

/-- Decoder for the `MoveFocusOrTab` payload. -/
def decMoveFocusOrTab : ETree → Option Action
  | p0 => do
      let direction ← dDirection p0
      pure (Action.MoveFocusOrTab direction)

/-- Decoder for the `MovePane` payload. -/
def decMovePane : ETree → Option Action
  | p0 => do
      let direction ← dOpt dDirection p0
      pure (Action.MovePane direction)

/-- Decoder for the `DumpScreen` payload. -/
def decDumpScreen : ETree → Option Action
  | (ETree.node p0 p1) => do
      let path ← dStr p0
      let full ← dBool p1
      pure (Action.DumpScreen path full)
  | _ => none

/-- Decoder for the `ScrollUpAt` payload. -/
def decScrollUpAt : ETree → Option Action
  | p0 => do
      let position ← dPosition p0
      pure (Action.ScrollUpAt position)

/-- Decoder for the `ScrollDownAt` payload. -/
def decScrollDownAt : ETree → Option Action
  | p0 => do
      let position ← dPosition p0
      pure (Action.ScrollDownAt position)

/-- Decoder for the `NewPane` payload. -/
def decNewPane : ETree → Option Action
  | (ETree.node p0 p1) => do
      let direction ← dOpt dDirection p0
      let name ← dOpt dStr p1
      pure (Action.NewPane direction name)
  | _ => none

/-- Decoder for the `EditFile` payload. -/
def decEditFile : ETree → Option Action
  | (ETree.node p0 (ETree.node p1 (ETree.node p2 (ETree.node p3 p4)))) => do
      let file ← dStr p0
      let line_number ← dOpt dNat p1
      let cwd ← dOpt dStr p2
      let direction ← dOpt dDirection p3
      let floating ← dBool p4
      pure (Action.EditFile file line_number cwd direction floating)
  | _ => none

/-- Decoder for the `NewFloatingPane` payload. -/
def decNewFloatingPane : ETree → Option Action
  | (ETree.node p0 p1) => do
      let run ← dOpt dRunCommandAction p0
      let name ← dOpt dStr p1
      pure (Action.NewFloatingPane run name)
  | _ => none

/-- Decoder for the `NewTiledPane` payload. -/
def decNewTiledPane : ETree → Option Action
  | (ETree.node p0 (ETree.node p1 p2)) => do
      let direction ← dOpt dDirection p0
      let run ← dOpt dRunCommandAction p1
      let name ← dOpt dStr p2
      pure (Action.NewTiledPane direction run name)
  | _ => none

/-- Decoder for the `PaneNameInput` payload. -/
def decPaneNameInput : ETree → Option Action
  | p0 => do
      let bytes ← dList dNat p0
      pure (Action.PaneNameInput bytes)

/-- Decoder for the `NewTab` payload. -/
def decNewTab : ETree → Option Action
  | (ETree.node p0 (ETree.node p1 (ETree.node p2 (ETree.node p3 p4)))) => do
      let tiled_layout ← dOpt dTPL p0
      let floating_layouts ← dList dFPL p1
      let swap_tiled ← dOpt (dList dSTL) p2
      let swap_floating ← dOpt (dList dSFL) p3
      let name ← dOpt dStr p4
      pure (Action.NewTab tiled_layout floating_layouts swap_tiled swap_floating name)
  | _ => none

/-- Decoder for the `GoToTab` payload. -/
def decGoToTab : ETree → Option Action
  | p0 => do
      let index ← dNat p0
      pure (Action.GoToTab index)

/-- Decoder for the `GoToTabName` payload. -/
def decGoToTabName : ETree → Option Action
  | (ETree.node p0 p1) => do
      let name ← dStr p0
      let create ← dBool p1
      pure (Action.GoToTabName name create)
  | _ => none

/-- Decoder for the `TabNameInput` payload. -/
def decTabNameInput : ETree → Option Action
  | p0 => do
      let bytes ← dList dNat p0
      pure (Action.TabNameInput bytes)

/-- Decoder for the `Run` payload. -/
def decRun : ETree → Option Action
  | p0 => do
      let command ← dRunCommandAction p0
      pure (Action.Run command)

/-- Decoder for the `LeftClick` payload. -/
def decLeftClick : ETree → Option Action
  | p0 => do
      let position ← dPosition p0
      pure (Action.LeftClick position)

/-- Decoder for the `RightClick` payload. -/
def decRightClick : ETree → Option Action
  | p0 => do
      let position ← dPosition p0
      pure (Action.RightClick position)

/-- Decoder for the `MiddleClick` payload. -/
def decMiddleClick : ETree → Option Action
  | p0 => do
      let position ← dPosition p0
      pure (Action.MiddleClick position)

/-- Decoder for the `LaunchOrFocusPlugin` payload. -/
def decLaunchOrFocusPlugin : ETree → Option Action
  | (ETree.node p0 p1) => do
      let plugin ← dRunPlugin p0
      let should_float ← dBool p1
      pure (Action.LaunchOrFocusPlugin plugin should_float)
  | _ => none

/-- Decoder for the `LeftMouseRelease` payload. -/
def decLeftMouseRelease : ETree → Option Action
  | p0 => do
      let position ← dPosition p0
      pure (Action.LeftMouseRelease position)

/-- Decoder for the `RightMouseRelease` payload. -/
def decRightMouseRelease : ETree → Option Action
  | p0 => do
      let position ← dPosition p0
      pure (Action.RightMouseRelease position)

/-- Decoder for the `MiddleMouseRelease` payload. -/
def decMiddleMouseRelease : ETree → Option Action
  | p0 => do
      let position ← dPosition p0
      pure (Action.MiddleMouseRelease position)

/-- Decoder for the `MouseHoldLeft` payload. -/
def decMouseHoldLeft : ETree → Option Action
  | p0 => do
      let position ← dPosition p0
      pure (Action.MouseHoldLeft position)

/-- Decoder for the `MouseHoldRight` payload. -/
def decMouseHoldRight : ETree → Option Action
  | p0 => do
      let position ← dPosition p0
      pure (Action.MouseHoldRight position)

/-- Decoder for the `MouseHoldMiddle` payload. -/
def decMouseHoldMiddle : ETree → Option Action
  | p0 => do
      let position ← dPosition p0
      pure (Action.MouseHoldMiddle position)

/-- Decoder for the `SearchInput` payload. -/
def decSearchInput : ETree → Option Action
  | p0 => do
      let bytes ← dList dNat p0
      pure (Action.SearchInput bytes)

/-- Decoder for the `Search` payload. -/
def decSearch : ETree → Option Action
  | p0 => do
      let direction ← dSearchDirection p0
      pure (Action.Search direction)

/-- Decoder for the `SearchToggleOption` payload. -/
def decSearchToggleOption : ETree → Option Action
  | p0 => do
      let option ← dSearchOption p0
      pure (Action.SearchToggleOption option)

/-- Decoder for the `NewTiledPluginPane` payload. -/
def decNewTiledPluginPane : ETree → Option Action
  | (ETree.node p0 p1) => do
      let location ← dRunPluginLocation p0
      let name ← dOpt dStr p1
      pure (Action.NewTiledPluginPane location name)
  | _ => none

/-- Decoder for the `NewFloatingPluginPane` payload. -/
def decNewFloatingPluginPane : ETree → Option Action
  | (ETree.node p0 p1) => do
      let location ← dRunPluginLocation p0
      let name ← dOpt dStr p1
      pure (Action.NewFloatingPluginPane location name)
  | _ => none

/-- Decoder for the `StartOrReloadPlugin` payload. -/
def decStartOrReloadPlugin : ETree → Option Action
  | p0 => do
      let plugin ← dRunPlugin p0
      pure (Action.StartOrReloadPlugin plugin)

/-- Decoder dispatch for payload-free variants. -/
def dAtom (i : Nat) : Option Action :=
  if i = 0 then some Action.Quit
  else if i = 6 then some Action.FocusNextPane
  else if i = 7 then some Action.FocusPreviousPane
  else if i = 8 then some Action.SwitchFocus
  else if i = 12 then some Action.MovePaneBackwards
  else if i = 13 then some Action.ClearScreen
  else if i = 15 then some Action.EditScrollback
  else if i = 16 then some Action.ScrollUp
  else if i = 18 then some Action.ScrollDown
  else if i = 20 then some Action.ScrollToBottom
  else if i = 21 then some Action.ScrollToTop
  else if i = 22 then some Action.PageScrollUp
  else if i = 23 then some Action.PageScrollDown
  else if i = 24 then some Action.HalfPageScrollUp
  else if i = 25 then some Action.HalfPageScrollDown
  else if i = 26 then some Action.ToggleFocusFullscreen
  else if i = 27 then some Action.TogglePaneFrames
  else if i = 28 then some Action.ToggleActiveSyncTab
  else if i = 33 then some Action.TogglePaneEmbedOrFloating
  else if i = 34 then some Action.ToggleFloatingPanes
  else if i = 35 then some Action.CloseFocus
  else if i = 37 then some Action.UndoRenamePane
  else if i = 39 then some Action.NoOp
  else if i = 40 then some Action.GoToNextTab
  else if i = 41 then some Action.GoToPreviousTab
  else if i = 42 then some Action.CloseTab
  else if i = 45 then some Action.ToggleTab
  else if i = 47 then some Action.UndoRenameTab
  else if i = 49 then some Action.Detach
  else if i = 60 then some Action.Copy
  else if i = 61 then some Action.Confirm
  else if i = 62 then some Action.Deny
  else if i = 67 then some Action.ToggleMouseMode
  else if i = 68 then some Action.PreviousSwapLayout
  else if i = 69 then some Action.NextSwapLayout
  else if i = 70 then some Action.QueryTabNames
  else none

/-- Partial inverse of `eAction`. -/
def dAction : ETree → Option Action
  | ETree.n i => dAtom i
  | ETree.node (ETree.n i) p =>
      if i = 1 then decWrite p
      else if i = 2 then decWriteChars p
      else if i = 3 then decSwitchToMode p
      else if i = 4 then decSwitchModeForAllClients p
      else if i = 5 then decResize p
      else if i = 9 then decMoveFocus p
      else if i = 10 then decMoveFocusOrTab p
      else if i = 11 then decMovePane p
      else if i = 14 then decDumpScreen p
      else if i = 17 then decScrollUpAt p
      else if i = 19 then decScrollDownAt p
      else if i = 29 then decNewPane p
      else if i = 30 then decEditFile p
      else if i = 31 then decNewFloatingPane p
      else if i = 32 then decNewTiledPane p
      else if i = 36 then decPaneNameInput p
      else if i = 38 then decNewTab p
      else if i = 43 then decGoToTab p
      else if i = 44 then decGoToTabName p
      else if i = 46 then decTabNameInput p
      else if i = 48 then decRun p
      else if i = 50 then decLeftClick p
      else if i = 51 then decRightClick p
      else if i = 52 then decMiddleClick p
      else if i = 53 then decLaunchOrFocusPlugin p
      else if i = 54 then decLeftMouseRelease p
      else if i = 55 then decRightMouseRelease p
      else if i = 56 then decMiddleMouseRelease p
      else if i = 57 then decMouseHoldLeft p
      else if i = 58 then decMouseHoldRight p
      else if i = 59 then decMouseHoldMiddle p
      else if i = 63 then (dAction p).map Action.SkipConfirm
      else if i = 64 then decSearchInput p
      else if i = 65 then decSearch p
      else if i = 66 then decSearchToggleOption p
      else if i = 71 then decNewTiledPluginPane p
      else if i = 72 then decNewFloatingPluginPane p
      else if i = 73 then decStartOrReloadPlugin p
      else none
  | _ => none
set_option maxHeartbeats 2000000 in
@[simp]
theorem dAction_eAction (a : Action) : dAction (eAction a) = some a := by
  induction a with
  | Quit => rfl
  | Write bytes =>
      rw [show dAction (eAction (Action.Write bytes))
            = (dList dNat (eList eNat bytes)).bind (fun x0 => some (Action.Write x0)) from rfl]
      simp
  | WriteChars chars =>
      rw [show dAction (eAction (Action.WriteChars chars))
            = (dStr (eStr chars)).bind (fun x0 => some (Action.WriteChars x0)) from rfl]
      simp
  | SwitchToMode mode =>
      rw [show dAction (eAction (Action.SwitchToMode mode))
            = (dInputMode (eInputMode mode)).bind (fun x0 => some (Action.SwitchToMode x0)) from rfl]
      simp
  | SwitchModeForAllClients mode =>
      rw [show dAction (eAction (Action.SwitchModeForAllClients mode))
            = (dInputMode (eInputMode mode)).bind (fun x0 => some (Action.SwitchModeForAllClients x0)) from rfl]
      simp
  | Resize resize direction =>
      rw [show dAction (eAction (Action.Resize resize direction))
            = (dResize (eResize resize)).bind (fun x0 => (dOpt dDirection (eOpt eDirection direction)).bind (fun x1 => some (Action.Resize x0 x1))) from rfl]
      simp
  | FocusNextPane => rfl
  | FocusPreviousPane => rfl
  | SwitchFocus => rfl
  | MoveFocus direction =>
      rw [show dAction (eAction (Action.MoveFocus direction))
            = (dDirection (eDirection direction)).bind (fun x0 => some (Action.MoveFocus x0)) from rfl]
      simp
  | MoveFocusOrTab direction =>
      rw [show dAction (eAction (Action.MoveFocusOrTab direction))
            = (dDirection (eDirection direction)).bind (fun x0 => some (Action.MoveFocusOrTab x0)) from rfl]
      simp
  | MovePane direction =>
      rw [show dAction (eAction (Action.MovePane direction))
            = (dOpt dDirection (eOpt eDirection direction)).bind (fun x0 => some (Action.MovePane x0)) from rfl]
      simp
  | MovePaneBackwards => rfl
  | ClearScreen => rfl
  | DumpScreen path full =>
      rw [show dAction (eAction (Action.DumpScreen path full))
            = (dStr (eStr path)).bind (fun x0 => (dBool (eBool full)).bind (fun x1 => some (Action.DumpScreen x0 x1))) from rfl]
      simp
  | EditScrollback => rfl
  | ScrollUp => rfl
  | ScrollUpAt position =>
      rw [show dAction (eAction (Action.ScrollUpAt position))
            = (dPosition (ePosition position)).bind (fun x0 => some (Action.ScrollUpAt x0)) from rfl]
      simp
  | ScrollDown => rfl
  | ScrollDownAt position =>
      rw [show dAction (eAction (Action.ScrollDownAt position))
            = (dPosition (ePosition position)).bind (fun x0 => some (Action.ScrollDownAt x0)) from rfl]
      simp
  | ScrollToBottom => rfl
  | ScrollToTop => rfl
  | PageScrollUp => rfl
  | PageScrollDown => rfl
  | HalfPageScrollUp => rfl
  | HalfPageScrollDown => rfl
  | ToggleFocusFullscreen => rfl
  | TogglePaneFrames => rfl
  | ToggleActiveSyncTab => rfl
  | NewPane direction name =>
      rw [show dAction (eAction (Action.NewPane direction name))
            = (dOpt dDirection (eOpt eDirection direction)).bind (fun x0 => (dOpt dStr (eOpt eStr name)).bind (fun x1 => some (Action.NewPane x0 x1))) from rfl]
      simp
  | EditFile file line_number cwd direction floating =>
      rw [show dAction (eAction (Action.EditFile file line_number cwd direction floating))
            = (dStr (eStr file)).bind (fun x0 => (dOpt dNat (eOpt eNat line_number)).bind (fun x1 => (dOpt dStr (eOpt eStr cwd)).bind (fun x2 => (dOpt dDirection (eOpt eDirection direction)).bind (fun x3 => (dBool (eBool floating)).bind (fun x4 => some (Action.EditFile x0 x1 x2 x3 x4)))))) from rfl]
      simp
  | NewFloatingPane run name =>
      rw [show dAction (eAction (Action.NewFloatingPane run name))
            = (dOpt dRunCommandAction (eOpt eRunCommandAction run)).bind (fun x0 => (dOpt dStr (eOpt eStr name)).bind (fun x1 => some (Action.NewFloatingPane x0 x1))) from rfl]
      simp
  | NewTiledPane direction run name =>
      rw [show dAction (eAction (Action.NewTiledPane direction run name))
            = (dOpt dDirection (eOpt eDirection direction)).bind (fun x0 => (dOpt dRunCommandAction (eOpt eRunCommandAction run)).bind (fun x1 => (dOpt dStr (eOpt eStr name)).bind (fun x2 => some (Action.NewTiledPane x0 x1 x2)))) from rfl]
      simp
  | TogglePaneEmbedOrFloating => rfl
  | ToggleFloatingPanes => rfl
  | CloseFocus => rfl
  | PaneNameInput bytes =>
      rw [show dAction (eAction (Action.PaneNameInput bytes))
            = (dList dNat (eList eNat bytes)).bind (fun x0 => some (Action.PaneNameInput x0)) from rfl]
      simp
  | UndoRenamePane => rfl
  | NewTab tiled_layout floating_layouts swap_tiled swap_floating name =>
      rw [show dAction (eAction (Action.NewTab tiled_layout floating_layouts swap_tiled swap_floating name))
            = (dOpt dTPL (eOpt eTPL tiled_layout)).bind (fun x0 => (dList dFPL (eList eFPL floating_layouts)).bind (fun x1 => (dOpt (dList dSTL) (eOpt (eList eSTL) swap_tiled)).bind (fun x2 => (dOpt (dList dSFL) (eOpt (eList eSFL) swap_floating)).bind (fun x3 => (dOpt dStr (eOpt eStr name)).bind (fun x4 => some (Action.NewTab x0 x1 x2 x3 x4)))))) from rfl]
      simp
  | NoOp => rfl
  | GoToNextTab => rfl
  | GoToPreviousTab => rfl
  | CloseTab => rfl
  | GoToTab index =>
      rw [show dAction (eAction (Action.GoToTab index))
            = (dNat (eNat index)).bind (fun x0 => some (Action.GoToTab x0)) from rfl]
      simp
  | GoToTabName name create =>
      rw [show dAction (eAction (Action.GoToTabName name create))
            = (dStr (eStr name)).bind (fun x0 => (dBool (eBool create)).bind (fun x1 => some (Action.GoToTabName x0 x1))) from rfl]
      simp
  | ToggleTab => rfl
  | TabNameInput bytes =>
      rw [show dAction (eAction (Action.TabNameInput bytes))
            = (dList dNat (eList eNat bytes)).bind (fun x0 => some (Action.TabNameInput x0)) from rfl]
      simp
  | UndoRenameTab => rfl
  | Run command =>
      rw [show dAction (eAction (Action.Run command))
            = (dRunCommandAction (eRunCommandAction command)).bind (fun x0 => some (Action.Run x0)) from rfl]
      simp
  | Detach => rfl
  | LeftClick position =>
      rw [show dAction (eAction (Action.LeftClick position))
            = (dPosition (ePosition position)).bind (fun x0 => some (Action.LeftClick x0)) from rfl]
      simp
  | RightClick position =>
      rw [show dAction (eAction (Action.RightClick position))
            = (dPosition (ePosition position)).bind (fun x0 => some (Action.RightClick x0)) from rfl]
      simp
  | MiddleClick position =>
      rw [show dAction (eAction (Action.MiddleClick position))
            = (dPosition (ePosition position)).bind (fun x0 => some (Action.MiddleClick x0)) from rfl]
      simp
  | LaunchOrFocusPlugin plugin should_float =>
      rw [show dAction (eAction (Action.LaunchOrFocusPlugin plugin should_float))
            = (dRunPlugin (eRunPlugin plugin)).bind (fun x0 => (dBool (eBool should_float)).bind (fun x1 => some (Action.LaunchOrFocusPlugin x0 x1))) from rfl]
      simp
  | LeftMouseRelease position =>
      rw [show dAction (eAction (Action.LeftMouseRelease position))
            = (dPosition (ePosition position)).bind (fun x0 => some (Action.LeftMouseRelease x0)) from rfl]
      simp
  | RightMouseRelease position =>
      rw [show dAction (eAction (Action.RightMouseRelease position))
            = (dPosition (ePosition position)).bind (fun x0 => some (Action.RightMouseRelease x0)) from rfl]
      simp
  | MiddleMouseRelease position =>
      rw [show dAction (eAction (Action.MiddleMouseRelease position))
            = (dPosition (ePosition position)).bind (fun x0 => some (Action.MiddleMouseRelease x0)) from rfl]
      simp
  | MouseHoldLeft position =>
      rw [show dAction (eAction (Action.MouseHoldLeft position))
            = (dPosition (ePosition position)).bind (fun x0 => some (Action.MouseHoldLeft x0)) from rfl]
      simp
  | MouseHoldRight position =>
      rw [show dAction (eAction (Action.MouseHoldRight position))
            = (dPosition (ePosition position)).bind (fun x0 => some (Action.MouseHoldRight x0)) from rfl]
      simp
  | MouseHoldMiddle position =>
      rw [show dAction (eAction (Action.MouseHoldMiddle position))
            = (dPosition (ePosition position)).bind (fun x0 => some (Action.MouseHoldMiddle x0)) from rfl]
      simp
  | Copy => rfl
  | Confirm => rfl
  | Deny => rfl
  | SkipConfirm action ih =>
      rw [show dAction (eAction (Action.SkipConfirm action))
            = (dAction (eAction action)).map Action.SkipConfirm from rfl, ih]
      rfl
  | SearchInput bytes =>
      rw [show dAction (eAction (Action.SearchInput bytes))
            = (dList dNat (eList eNat bytes)).bind (fun x0 => some (Action.SearchInput x0)) from rfl]
      simp
  | Search direction =>
      rw [show dAction (eAction (Action.Search direction))
            = (dSearchDirection (eSearchDirection direction)).bind (fun x0 => some (Action.Search x0)) from rfl]
      simp
  | SearchToggleOption option =>
      rw [show dAction (eAction (Action.SearchToggleOption option))
            = (dSearchOption (eSearchOption option)).bind (fun x0 => some (Action.SearchToggleOption x0)) from rfl]
      simp
  | ToggleMouseMode => rfl
  | PreviousSwapLayout => rfl
  | NextSwapLayout => rfl
  | QueryTabNames => rfl
  | NewTiledPluginPane location name =>
      rw [show dAction (eAction (Action.NewTiledPluginPane location name))
            = (dRunPluginLocation (eRunPluginLocation location)).bind (fun x0 => (dOpt dStr (eOpt eStr name)).bind (fun x1 => some (Action.NewTiledPluginPane x0 x1))) from rfl]
      simp
  | NewFloatingPluginPane location name =>
      rw [show dAction (eAction (Action.NewFloatingPluginPane location name))
            = (dRunPluginLocation (eRunPluginLocation location)).bind (fun x0 => (dOpt dStr (eOpt eStr name)).bind (fun x1 => some (Action.NewFloatingPluginPane x0 x1))) from rfl]
      simp
  | StartOrReloadPlugin plugin =>
      rw [show dAction (eAction (Action.StartOrReloadPlugin plugin))
            = (dRunPlugin (eRunPlugin plugin)).bind (fun x0 => some (Action.StartOrReloadPlugin x0)) from rfl]
      simp

/-- Decidable structural equality for `Action`, through the injective
encoding (the Rust enum derives `PartialEq`/`Eq` structurally). -/
instance instDecidableEqAction : DecidableEq Action := fun a b =>
  if h : eAction a = eAction b then
    isTrue (by
      have h2 := congrArg dAction h
      rw [dAction_eAction, dAction_eAction] at h2
      exact Option.some.inj h2)
  else
    isFalse (fun hab => h (by rw [hab]))

/-- Discriminator for the `NewTab` variant of `Action`. -/
def Action.isNewTab : Action → Bool
  | Action.NewTab _ _ _ _ _ => true
  | _ => false

/-- Checks that two Action are match except their mutable attributes:
any two `NewTab` values are related, every other pair falls back to
structural equality (`actions.rs` lines 240-245). -/
def Action.shallow_eq (a other_action : Action) : Bool :=
  match a, other_action with
  | Action.NewTab _ _ _ _ _, Action.NewTab _ _ _ _ _ => true
  | _, _ => decide (a = other_action)

/-- Working-directory resolution as written in the `NewPane`, `Edit` and
`NewTab` branches of `actions_from_cli`:
`cwd.map(|cwd| current_dir.join(cwd)).or_else(|| Some(current_dir))`. -/
def resolveCwd (current_dir : PathBuf) (cwd : Option PathBuf) : Option PathBuf :=
  match cwd with
  | some c => some (PathBuf.join current_dir c)
  | none => some current_dir

/-- Layout-search-directory fallback chain of the `NewTab` branch:
explicit argument, else the configured directory, else the process-wide
default location (the latter passed in explicitly, per the spec, instead
of being read from global state). -/
def resolveLayoutDir (layout_dir : Option PathBuf) (config : Option Config)
    (default_layout_dir : Option PathBuf) : Option PathBuf :=
  match layout_dir with
  | some d => some d
  | none =>
      match config with
      | some c =>
          match c.options.layout_dir with
          | some d => some d
          | none => default_layout_dir
      | none => default_layout_dir

/-- Modelled from the spec: the layout collaborator. Given the layout
path, the resolved layout-search directory and the resolved working
directory, it either returns the parsed layout description or a rendered
diagnostic string (the composition of `Layout::stringified_from_path_or_default`,
`Layout::from_str` and the error rendering of `actions.rs` lines 406-440,
all of which live outside the sources provided). -/
abbrev LayoutLoader := PathBuf → Option PathBuf → Option PathBuf → Except String Layout

/-- Model of `Action::actions_from_cli` (`actions.rs` lines 247-497),
instrumented: the first component is the returned value, the second
counts how many times the Rust code path invokes the injected
`get_current_dir` capability. The layout collaborator and the process-wide
default layout directory are passed explicitly (see `LayoutLoader` and
`resolveLayoutDir`). -/
def Action.actions_from_cli_counted (cli_action : CliAction)
    (get_current_dir : Unit → PathBuf) (config : Option Config)
    (loader : LayoutLoader) (default_layout_dir : Option PathBuf) :
    Except String (List Action) × Nat :=
  match cli_action with
  | CliAction.Write bytes => (Except.ok [Action.Write bytes], 0)
  | CliAction.WriteChars chars => (Except.ok [Action.WriteChars chars], 0)
  | CliAction.Resize resize direction => (Except.ok [Action.Resize resize direction], 0)
  | CliAction.FocusNextPane => (Except.ok [Action.FocusNextPane], 0)
  | CliAction.FocusPreviousPane => (Except.ok [Action.FocusPreviousPane], 0)
  | CliAction.MoveFocus direction => (Except.ok [Action.MoveFocus direction], 0)
  | CliAction.MoveFocusOrTab direction => (Except.ok [Action.MoveFocusOrTab direction], 0)
  | CliAction.MovePane direction => (Except.ok [Action.MovePane direction], 0)
  | CliAction.MovePaneBackwards => (Except.ok [Action.MovePaneBackwards], 0)
  | CliAction.Clear => (Except.ok [Action.ClearScreen], 0)
  | CliAction.DumpScreen path full => (Except.ok [Action.DumpScreen path full], 0)
  | CliAction.EditScrollback => (Except.ok [Action.EditScrollback], 0)
  | CliAction.ScrollUp => (Except.ok [Action.ScrollUp], 0)
  | CliAction.ScrollDown => (Except.ok [Action.ScrollDown], 0)
  | CliAction.ScrollToBottom => (Except.ok [Action.ScrollToBottom], 0)
  | CliAction.ScrollToTop => (Except.ok [Action.ScrollToTop], 0)
  | CliAction.PageScrollUp => (Except.ok [Action.PageScrollUp], 0)
  | CliAction.PageScrollDown => (Except.ok [Action.PageScrollDown], 0)
  | CliAction.HalfPageScrollUp => (Except.ok [Action.HalfPageScrollUp], 0)
  | CliAction.HalfPageScrollDown => (Except.ok [Action.HalfPageScrollDown], 0)
  | CliAction.ToggleFullscreen => (Except.ok [Action.ToggleFocusFullscreen], 0)
  | CliAction.TogglePaneFrames => (Except.ok [Action.TogglePaneFrames], 0)
  | CliAction.ToggleActiveSyncTab => (Except.ok [Action.ToggleActiveSyncTab], 0)
  | CliAction.NewPane direction command plugin cwd floating name close_on_exit
      start_suspended =>
      let current_dir := get_current_dir ()
      let cwd := resolveCwd current_dir cwd
      (match plugin with
       | some plugin =>
           if floating then
             match RunPluginLocation.parse plugin cwd with
             | Except.error e =>
                 Except.error ("Failed to parse plugin loction " ++ plugin ++ ": " ++ e)
             | Except.ok plugin2 => Except.ok [Action.NewFloatingPluginPane plugin2 name]
           else
             match RunPluginLocation.parse plugin cwd with
             | Except.error e =>
                 Except.error ("Failed to parse plugin location " ++ plugin ++ ": " ++ e)
             | Except.ok plugin2 => Except.ok [Action.NewTiledPluginPane plugin2 name]
       | none =>
           match command with
           | c0 :: args =>
               let hold_on_start := start_suspended
               let hold_on_close := !close_on_exit
               let run_command_action : RunCommandAction :=
                 { command := c0, args := args, cwd := cwd, direction := direction,
                   hold_on_close := hold_on_close, hold_on_start := hold_on_start }
               if floating then
                 Except.ok [Action.NewFloatingPane (some run_command_action) name]
               else
                 Except.ok [Action.NewTiledPane direction (some run_command_action) name]
           | [] =>
               if floating then Except.ok [Action.NewFloatingPane none name]
               else Except.ok [Action.NewTiledPane direction none name], 1)
  | CliAction.Edit direction file line_number floating cwd =>
      let current_dir := get_current_dir ()
      let cwd := resolveCwd current_dir cwd
      let file :=
        if PathBuf.isRelative file then
          match cwd with
          | some c => PathBuf.join c file
          | none => file
        else file
      (Except.ok [Action.EditFile file line_number cwd direction floating], 1)
  | CliAction.SwitchMode input_mode =>
      (Except.ok [Action.SwitchModeForAllClients input_mode], 0)
  | CliAction.TogglePaneEmbedOrFloating => (Except.ok [Action.TogglePaneEmbedOrFloating], 0)
  | CliAction.ToggleFloatingPanes => (Except.ok [Action.ToggleFloatingPanes], 0)
  | CliAction.ClosePane => (Except.ok [Action.CloseFocus], 0)
  | CliAction.RenamePane name =>
      (Except.ok [Action.UndoRenamePane, Action.PaneNameInput (strBytes name)], 0)
  | CliAction.UndoRenamePane => (Except.ok [Action.UndoRenamePane], 0)
  | CliAction.GoToNextTab => (Except.ok [Action.GoToNextTab], 0)
  | CliAction.GoToPreviousTab => (Except.ok [Action.GoToPreviousTab], 0)
  | CliAction.CloseTab => (Except.ok [Action.CloseTab], 0)
  | CliAction.GoToTab index => (Except.ok [Action.GoToTab index], 0)
  | CliAction.GoToTabName name create => (Except.ok [Action.GoToTabName name create], 0)
  | CliAction.RenameTab name =>
      (Except.ok [Action.TabNameInput [0], Action.TabNameInput (strBytes name)], 0)
  | CliAction.UndoRenameTab => (Except.ok [Action.UndoRenameTab], 0)
  | CliAction.NewTab name layout layout_dir cwd =>
      let current_dir := get_current_dir ()
      let cwd := resolveCwd current_dir cwd
      (match layout with
       | some layout_path =>
           let layout_dir := resolveLayoutDir layout_dir config default_layout_dir
           match loader layout_path layout_dir cwd with
           | Except.error e => Except.error e
           | Except.ok layout =>
               let tabs := layout.tabs
               if tabs.length > 1 then
                 Except.error "Tab layout cannot itself have tabs"
               else
                 match tabs with
                 | (tab_name, tab_layout, floating_panes_layout) :: _ =>
                     let swap_tiled_layouts := some layout.swap_tiled_layouts
                     let swap_floating_layouts := some layout.swap_floating_layouts
                     let name := tab_name.or name
                     Except.ok [Action.NewTab (some tab_layout) floating_panes_layout
                       swap_tiled_layouts swap_floating_layouts name]
                 | [] =>
                     let swap_tiled_layouts := some layout.swap_tiled_layouts
                     let swap_floating_layouts := some layout.swap_floating_layouts
                     let (tab_layout, floating_panes_layout) := layout.new_tab
                     Except.ok [Action.NewTab (some tab_layout) floating_panes_layout
                       swap_tiled_layouts swap_floating_layouts name]
       | none => Except.ok [Action.NewTab none [] none none name], 1)
  | CliAction.PreviousSwapLayout => (Except.ok [Action.PreviousSwapLayout], 0)
  | CliAction.NextSwapLayout => (Except.ok [Action.NextSwapLayout], 0)
  | CliAction.QueryTabNames => (Except.ok [Action.QueryTabNames], 0)
  | CliAction.StartOrReloadPlugin url =>
      let current_dir := get_current_dir ()
      (match RunPluginLocation.parse url (some current_dir) with
       | Except.error e => Except.error ("Failed to parse plugin location: " ++ e)
       | Except.ok run_plugin_location =>
           let run_plugin : RunPlugin :=
             { location := run_plugin_location, allow_exec_host_cmd := false }
           Except.ok [Action.StartOrReloadPlugin run_plugin], 1)
  | CliAction.LaunchOrFocusPlugin url floating =>
      let current_dir := get_current_dir ()
      (match RunPluginLocation.parse url (some current_dir) with
       | Except.error e => Except.error ("Failed to parse plugin location: " ++ e)
       | Except.ok run_plugin_location =>
           let run_plugin : RunPlugin :=
             { location := run_plugin_location, allow_exec_host_cmd := false }
           Except.ok [Action.LaunchOrFocusPlugin run_plugin floating], 1)

/-- The resolver `Action::actions_from_cli`: the value component of the
instrumented model. -/
def Action.actions_from_cli (cli_action : CliAction)
    (get_current_dir : Unit → PathBuf) (config : Option Config)
    (loader : LayoutLoader) (default_layout_dir : Option PathBuf) :
    Except String (List Action) :=
  (Action.actions_from_cli_counted cli_action get_current_dir config loader
    default_layout_dir).1

/-- Layout loader that reports the working directory it was handed, used
to observe which resolved path the `NewTab` branch passes to the layout
collaborator. -/
def probeLoader : LayoutLoader :=
  fun _layout_path _layout_dir cwd =>
    Except.error (match cwd with | some c => c | none => "")

/-- Claim C1: for every NewPane command whose plugin URL field is present
(and whose plugin location resolves), `actions_from_cli` produces a
plugin-pane action -- `NewFloatingPluginPane` when floating is true and
`NewTiledPluginPane` otherwise -- regardless of the command line supplied;
the tiled plugin-pane action carries no placement direction (its variant
has no direction payload and the result does not depend on the requested
direction). -/
theorem c1_plugin_url_wins (direction : Option Direction) (command : List String)
    (plugin_url : String) (cwd : Option PathBuf) (floating : Bool)
    (name : Option String) (close_on_exit start_suspended : Bool)
    (f : Unit → PathBuf) (cfg : Option Config) (L : LayoutLoader)
    (dd : Option PathBuf) (loc : RunPluginLocation)
    (hparse : RunPluginLocation.parse plugin_url (resolveCwd (f ()) cwd) = Except.ok loc) :
    Action.actions_from_cli
        (CliAction.NewPane direction command (some plugin_url) cwd floating name
          close_on_exit start_suspended) f cfg L dd
      = Except.ok [if floating then Action.NewFloatingPluginPane loc name
                   else Action.NewTiledPluginPane loc name] := by
  cases floating <;>
    simp [Action.actions_from_cli, Action.actions_from_cli_counted, hparse]

/-- Claim C1, witness: a concrete floating and a concrete tiled instance;
the tiled one requests a direction, yet the produced action has none. -/
theorem c1_plugin_url_wins_witness :
    Action.actions_from_cli
        (CliAction.NewPane (some Direction.Right) ["ls", "-l"] (some "file:/p.wasm")
          (some "proj") false (some "p") false false)
        (fun _ => "/cur") none (fun _ _ _ => Except.error "") none
      = Except.ok [Action.NewTiledPluginPane (RunPluginLocation.file "/p.wasm") (some "p")]
    ∧ Action.actions_from_cli
        (CliAction.NewPane none [] (some "file:/p.wasm") none true (some "p") false false)
        (fun _ => "/cur") none (fun _ _ _ => Except.error "") none
      = Except.ok [Action.NewFloatingPluginPane (RunPluginLocation.file "/p.wasm") (some "p")] :=
  ⟨c1_plugin_url_wins (some Direction.Right) ["ls", "-l"] "file:/p.wasm" (some "proj")
      false (some "p") false false (fun _ => "/cur") none (fun _ _ _ => Except.error "")
      none (RunPluginLocation.file "/p.wasm") (by rfl),
   c1_plugin_url_wins none [] "file:/p.wasm" none true (some "p") false false
      (fun _ => "/cur") none (fun _ _ _ => Except.error "") none
      (RunPluginLocation.file "/p.wasm") (by rfl)⟩

/-- Claim C2, counterexample: for a RenameTab command the first produced
action is `TabNameInput [0]` (the sentinel byte in a buffer-input action),
not an undo-rename action, contradicting the claim that the first action
of every rename expansion is an undo-rename action. -/
theorem c2_counterexample :
    Action.actions_from_cli (CliAction.RenameTab "a") (fun _ => "/") none
        (fun _ _ _ => Except.error "") none
      = Except.ok [Action.TabNameInput [0], Action.TabNameInput [97]]
    ∧ Action.TabNameInput [0] ≠ Action.UndoRenameTab
    ∧ Action.TabNameInput [0] ≠ Action.UndoRenamePane := by
  refine ⟨by rfl, ?_, ?_⟩ <;> intro h <;> exact Action.noConfusion h

/-- Claim C2 (amended): RenamePane and RenameTab each return Ok with
exactly two actions; RenamePane yields `[UndoRenamePane, PaneNameInput
(utf8 bytes of the name)]`; RenameTab yields two `TabNameInput` buffer
actions, the first carrying the single zero sentinel byte and the second
the utf8 bytes of the name (its first action is not an undo-rename
variant). -/
theorem c2_rename_expansion (name : String) (f : Unit → PathBuf)
    (cfg : Option Config) (L : LayoutLoader) (dd : Option PathBuf) :
    Action.actions_from_cli (CliAction.RenamePane name) f cfg L dd
      = Except.ok [Action.UndoRenamePane, Action.PaneNameInput (strBytes name)]
    ∧ Action.actions_from_cli (CliAction.RenameTab name) f cfg L dd
      = Except.ok [Action.TabNameInput [0], Action.TabNameInput (strBytes name)] :=
  ⟨rfl, rfl⟩

/-- Claim C3: a NewTab command with a layout path whose loaded layout
defines more than one tab fails with exactly the error string
`Tab layout cannot itself have tabs` and produces no actions. -/
theorem c3_multi_tab_layout_error (name : Option String) (layout_path : PathBuf)
    (layout_dir cwd : Option PathBuf) (f : Unit → PathBuf) (cfg : Option Config)
    (dd : Option PathBuf) (L : LayoutLoader) (layout : Layout)
    (hload : L layout_path (resolveLayoutDir layout_dir cfg dd)
        (resolveCwd (f ()) cwd) = Except.ok layout)
    (htabs : layout.tabs.length > 1) :
    Action.actions_from_cli (CliAction.NewTab name (some layout_path) layout_dir cwd)
        f cfg L dd
      = Except.error "Tab layout cannot itself have tabs" := by
  simp [Action.actions_from_cli, Action.actions_from_cli_counted, hload, htabs]

/-- Claim C3, witness: a concrete loader returning a two-tab layout. -/
theorem c3_multi_tab_layout_error_witness :
    Action.actions_from_cli (CliAction.NewTab none (some "l.kdl") none none)
        (fun _ => "/") none
        (fun _ _ _ => Except.ok
          { tabs_list := [(none, ⟨0⟩, []), (none, ⟨1⟩, [])], template := ⟨0⟩,
            template_floating := [], swap_tiled_layouts := [],
            swap_floating_layouts := [] }) none
      = Except.error "Tab layout cannot itself have tabs" :=
  c3_multi_tab_layout_error none "l.kdl" none none (fun _ => "/") none none
    (fun _ _ _ => Except.ok
      { tabs_list := [(none, ⟨0⟩, []), (none, ⟨1⟩, [])], template := ⟨0⟩,
        template_floating := [], swap_tiled_layouts := [],
        swap_floating_layouts := [] })
    { tabs_list := [(none, ⟨0⟩, []), (none, ⟨1⟩, [])], template := ⟨0⟩,
      template_floating := [], swap_tiled_layouts := [],
      swap_floating_layouts := [] }
    (by rfl) (by decide)

/-- Claim C4: a NewTab command with a layout path whose loaded layout
defines exactly one tab produces one NewTab action whose name is the
layout tab name when present and the command-line name otherwise, and
which carries the tab pane tree, its floating-pane list, and the
description swap-tiled and swap-floating layout lists. -/
theorem c4_single_tab_layout (name : Option String) (layout_path : PathBuf)
    (layout_dir cwd : Option PathBuf) (f : Unit → PathBuf) (cfg : Option Config)
    (dd : Option PathBuf) (L : LayoutLoader) (layout : Layout)
    (tab_name : Option String) (tab_layout : TiledPaneLayout)
    (fpl : List FloatingPaneLayout)
    (hload : L layout_path (resolveLayoutDir layout_dir cfg dd)
        (resolveCwd (f ()) cwd) = Except.ok layout)
    (htabs : layout.tabs = [(tab_name, tab_layout, fpl)]) :
    Action.actions_from_cli (CliAction.NewTab name (some layout_path) layout_dir cwd)
        f cfg L dd
      = Except.ok [Action.NewTab (some tab_layout) fpl
          (some layout.swap_tiled_layouts) (some layout.swap_floating_layouts)
          (match tab_name with
           | some t => some t
           | none => name)] := by
  cases tab_name <;>
    simp [Action.actions_from_cli, Action.actions_from_cli_counted, hload, htabs,
      Option.or]

/-- Claim C4, witness: a concrete single-tab layout whose tab is named
wins over the command-line name. -/
theorem c4_single_tab_layout_witness :
    Action.actions_from_cli (CliAction.NewTab (some "cli") (some "l.kdl") none none)
        (fun _ => "/") none
        (fun _ _ _ => Except.ok
          { tabs_list := [(some "t", ⟨7⟩, [⟨3⟩])], template := ⟨0⟩,
            template_floating := [], swap_tiled_layouts := [⟨1⟩],
            swap_floating_layouts := [⟨2⟩] }) none
      = Except.ok [Action.NewTab (some ⟨7⟩) [⟨3⟩] (some [⟨1⟩]) (some [⟨2⟩])
          (some "t")] :=
  c4_single_tab_layout (some "cli") "l.kdl" none none (fun _ => "/") none none
    (fun _ _ _ => Except.ok
      { tabs_list := [(some "t", ⟨7⟩, [⟨3⟩])], template := ⟨0⟩,
        template_floating := [], swap_tiled_layouts := [⟨1⟩],
        swap_floating_layouts := [⟨2⟩] })
    { tabs_list := [(some "t", ⟨7⟩, [⟨3⟩])], template := ⟨0⟩,
      template_floating := [], swap_tiled_layouts := [⟨1⟩],
      swap_floating_layouts := [⟨2⟩] }
    (some "t") ⟨7⟩ [⟨3⟩] (by rfl) (by rfl)

/-- Claim C6: a NewPane command with no plugin URL and a non-empty command
line produces exactly one terminal-pane action whose run-command
descriptor has the first token as executable, the remaining tokens as
arguments, the resolved working directory, the requested direction,
`hold_on_start` equal to `start_suspended` and `hold_on_close` equal to
the negation of `close_on_exit`. -/
theorem c6_command_pane (direction : Option Direction) (c0 : String)
    (args : List String) (cwd : Option PathBuf) (floating : Bool)
    (name : Option String) (close_on_exit start_suspended : Bool)
    (f : Unit → PathBuf) (cfg : Option Config) (L : LayoutLoader)
    (dd : Option PathBuf) :
    Action.actions_from_cli
        (CliAction.NewPane direction (c0 :: args) none cwd floating name
          close_on_exit start_suspended) f cfg L dd
      = Except.ok [if floating then
            Action.NewFloatingPane
              (some { command := c0, args := args, cwd := resolveCwd (f ()) cwd,
                      direction := direction, hold_on_close := !close_on_exit,
                      hold_on_start := start_suspended }) name
          else
            Action.NewTiledPane direction
              (some { command := c0, args := args, cwd := resolveCwd (f ()) cwd,
                      direction := direction, hold_on_close := !close_on_exit,
                      hold_on_start := start_suspended }) name] := by
  cases floating <;> rfl

/-- Claim C9: in the single-tab branch of NewTab resolution the first-tab
extraction cannot fail: whenever the loaded layout passes the two guards
(not more than one tab, tab list non-empty), a first tab exists and the
resolver returns Ok with the action built from it -- no panic path. -/
theorem c9_first_tab_extraction_safe (name : Option String) (layout_path : PathBuf)
    (layout_dir cwd : Option PathBuf) (f : Unit → PathBuf) (cfg : Option Config)
    (dd : Option PathBuf) (L : LayoutLoader) (layout : Layout)
    (hload : L layout_path (resolveLayoutDir layout_dir cfg dd)
        (resolveCwd (f ()) cwd) = Except.ok layout)
    (hle : ¬ layout.tabs.length > 1) (hne : layout.tabs ≠ []) :
    ∃ t rest, layout.tabs = t :: rest ∧
      Action.actions_from_cli (CliAction.NewTab name (some layout_path) layout_dir cwd)
          f cfg L dd
        = Except.ok [Action.NewTab (some t.2.1) t.2.2
            (some layout.swap_tiled_layouts) (some layout.swap_floating_layouts)
            (t.1.or name)] := by
  cases htabs : layout.tabs with
  | nil => exact absurd htabs hne
  | cons t rest =>
      obtain ⟨tn, tl, fl⟩ := t
      rw [htabs] at hle
      have hrest : rest = [] := by
        cases rest with
        | nil => rfl
        | cons a l => exact absurd (by simp) hle
      subst hrest
      refine ⟨(tn, tl, fl), [], rfl, ?_⟩
      simp [Action.actions_from_cli, Action.actions_from_cli_counted, hload, htabs]

/-- Claim C9, witness: a concrete layout with exactly one tab. -/
theorem c9_first_tab_extraction_safe_witness :
    ∃ t rest,
      ({ tabs_list := [(none, ⟨4⟩, [])], template := ⟨0⟩, template_floating := [],
         swap_tiled_layouts := [], swap_floating_layouts := [] } : Layout).tabs
        = t :: rest ∧
      Action.actions_from_cli (CliAction.NewTab (some "n") (some "l.kdl") none none)
          (fun _ => "/") none
          (fun _ _ _ => Except.ok
            { tabs_list := [(none, ⟨4⟩, [])], template := ⟨0⟩,
              template_floating := [], swap_tiled_layouts := [],
              swap_floating_layouts := [] }) none
        = Except.ok [Action.NewTab (some t.2.1) t.2.2 (some []) (some [])
            (t.1.or (some "n"))] :=
  c9_first_tab_extraction_safe (some "n") "l.kdl" none none (fun _ => "/") none none
    (fun _ _ _ => Except.ok
      { tabs_list := [(none, ⟨4⟩, [])], template := ⟨0⟩, template_floating := [],
        swap_tiled_layouts := [], swap_floating_layouts := [] })
    { tabs_list := [(none, ⟨4⟩, [])], template := ⟨0⟩, template_floating := [],
      swap_tiled_layouts := [], swap_floating_layouts := [] }
    (by rfl) (by decide) (by decide)

/-- Claim C5: a relative working-directory override is joined under the
directory returned by the injected provider and an absolute override
replaces it outright -- stated for the join operation the resolver uses
and for the cwd the resolver hands to the produced Edit action, the
run-command descriptor, and the layout collaborator; including the spec
scenario for the Edit command. -/
theorem c5_cwd_override_resolution :
    (∀ base child : PathBuf, PathBuf.isAbsolute child = true →
        PathBuf.join base child = child)
    ∧ (∀ base child : PathBuf, PathBuf.isAbsolute child = false →
        PathBuf.join base child = base ++ "/" ++ child)
    ∧ (∀ (direction : Option Direction) (file : PathBuf) (ln : Option Nat)
          (floating : Bool) (q : PathBuf) (f : Unit → PathBuf) (cfg : Option Config)
          (L : LayoutLoader) (dd : Option PathBuf), ∃ file2,
        Action.actions_from_cli (CliAction.Edit direction file ln floating (some q))
            f cfg L dd
          = Except.ok [Action.EditFile file2 ln (some (PathBuf.join (f ()) q))
              direction floating])
    ∧ (∀ (direction : Option Direction) (c0 : String) (args : List String)
          (q : PathBuf) (name : Option String) (ce ss : Bool) (f : Unit → PathBuf)
          (cfg : Option Config) (L : LayoutLoader) (dd : Option PathBuf),
        Action.actions_from_cli
            (CliAction.NewPane direction (c0 :: args) none (some q) false name ce ss)
            f cfg L dd
          = Except.ok [Action.NewTiledPane direction
              (some { command := c0, args := args,
                      cwd := some (PathBuf.join (f ()) q), direction := direction,
                      hold_on_close := !ce, hold_on_start := ss }) name])
    ∧ (∀ (name : Option String) (lp : PathBuf) (ld : Option PathBuf) (q : PathBuf)
          (f : Unit → PathBuf) (cfg : Option Config) (dd : Option PathBuf),
        Action.actions_from_cli (CliAction.NewTab name (some lp) ld (some q)) f cfg
            probeLoader dd
          = Except.error (PathBuf.join (f ()) q))
    ∧ (∀ direction : Option Direction,
        Action.actions_from_cli
            (CliAction.Edit direction "src/main.txt" (some 10) false (some "proj"))
            (fun _ => "/home/u") none (fun _ _ _ => Except.error "") none
          = Except.ok [Action.EditFile "/home/u/proj/src/main.txt" (some 10)
              (some "/home/u/proj") direction false]) := by
  refine ⟨?_, ?_, ?_, ?_, ?_, ?_⟩
  · intro base child h
    simp [PathBuf.join, h]
  · intro base child h
    simp [PathBuf.join, h]
  · intro direction file ln floating q f cfg L dd
    exact ⟨_, rfl⟩
  · intro direction c0 args q name ce ss f cfg L dd
    rfl
  · intro name lp ld q f cfg dd
    rfl
  · intro direction
    rfl

/-- Claim C5, witness: the join behaviour at concrete absolute and
relative overrides, and the spec scenario at a concrete direction. -/
theorem c5_cwd_override_resolution_witness :
    PathBuf.join "/home/u" "/abs" = "/abs"
    ∧ PathBuf.join "/home/u" "proj" = "/home/u" ++ "/" ++ "proj"
    ∧ Action.actions_from_cli
        (CliAction.Edit none "src/main.txt" (some 10) false (some "proj"))
        (fun _ => "/home/u") none (fun _ _ _ => Except.error "") none
      = Except.ok [Action.EditFile "/home/u/proj/src/main.txt" (some 10)
          (some "/home/u/proj") none false] :=
  ⟨c5_cwd_override_resolution.1 "/home/u" "/abs" (by decide),
   c5_cwd_override_resolution.2.1 "/home/u" "proj" (by decide),
   c5_cwd_override_resolution.2.2.2.2.2 none⟩

/-- Claim C7: `shallow_eq` is true on any two NewTab actions irrespective
of payloads, and on every other pair of variants it is true exactly when
the two actions are structurally equal. -/
theorem c7_shallow_eq_characterisation :
    (∀ (a1 : Option TiledPaneLayout) (b1 : List FloatingPaneLayout)
        (c1 : Option (List SwapTiledLayout)) (d1 : Option (List SwapFloatingLayout))
        (e1 : Option String) a2 b2 c2 d2 e2,
        Action.shallow_eq (Action.NewTab a1 b1 c1 d1 e1)
          (Action.NewTab a2 b2 c2 d2 e2) = true)
    ∧ (∀ a b : Action, ¬(a.isNewTab = true ∧ b.isNewTab = true) →
        (Action.shallow_eq a b = true ↔ a = b)) := by
  constructor
  · intro a1 b1 c1 d1 e1 a2 b2 c2 d2 e2
    rfl
  · intro a b h
    have hred : Action.shallow_eq a b = decide (a = b) := by
      unfold Action.shallow_eq
      split
      · exact absurd ⟨rfl, rfl⟩ h
      · rfl
    rw [hred]
    exact decide_eq_true_iff

/-- Claim C7, witness: two NewTab actions with different payloads are
shallow-equal, and a non-NewTab pair is shallow-equal exactly when
equal. -/
theorem c7_shallow_eq_characterisation_witness :
    Action.shallow_eq (Action.NewTab none [] none none none)
        (Action.NewTab (some ⟨1⟩) [⟨2⟩] none none (some "x")) = true
    ∧ (Action.shallow_eq Action.Quit Action.Detach = true
        ↔ Action.Quit = Action.Detach) :=
  ⟨c7_shallow_eq_characterisation.1 none [] none none none (some ⟨1⟩) [⟨2⟩] none none
      (some "x"),
   c7_shallow_eq_characterisation.2 Action.Quit Action.Detach (by decide)⟩

/-- Claim C8: resolution is deterministic in (command, provider result,
configuration, collaborators) -- two providers returning the same
directory give identical results -- and the provider is invoked at most
once per resolution call (second component of the instrumented model). -/
theorem c8_deterministic_single_provider_call (c : CliAction) (cfg : Option Config)
    (L : LayoutLoader) (dd : Option PathBuf) (f g : Unit → PathBuf)
    (h : f () = g ()) :
    Action.actions_from_cli_counted c f cfg L dd
      = Action.actions_from_cli_counted c g cfg L dd
    ∧ Action.actions_from_cli c f cfg L dd = Action.actions_from_cli c g cfg L dd
    ∧ (Action.actions_from_cli_counted c f cfg L dd).2 ≤ 1 := by
  have hfg : f = g := funext (fun u => by cases u; exact h)
  subst hfg
  refine ⟨rfl, rfl, ?_⟩
  cases c <;> simp [Action.actions_from_cli_counted]

/-- Claim C8, witness: two syntactically different providers with the
same result on a concrete command. -/
theorem c8_deterministic_single_provider_call_witness :
    Action.actions_from_cli_counted (CliAction.GoToTab 3) (fun _ => "/") none
        (fun _ _ _ => Except.error "") none
      = Action.actions_from_cli_counted (CliAction.GoToTab 3)
          (fun _ => String.mk (List.replicate 1 (Char.ofNat 47))) none
          (fun _ _ _ => Except.error "") none
    ∧ Action.actions_from_cli (CliAction.GoToTab 3) (fun _ => "/") none
        (fun _ _ _ => Except.error "") none
      = Action.actions_from_cli (CliAction.GoToTab 3)
          (fun _ => String.mk (List.replicate 1 (Char.ofNat 47))) none
          (fun _ _ _ => Except.error "") none
    ∧ (Action.actions_from_cli_counted (CliAction.GoToTab 3) (fun _ => "/") none
        (fun _ _ _ => Except.error "") none).2 ≤ 1 :=
  c8_deterministic_single_provider_call (CliAction.GoToTab 3) none
    (fun _ _ _ => Except.error "") none (fun _ => "/")
    (fun _ => String.mk (List.replicate 1 (Char.ofNat 47))) (by decide)

/-- Claim C10: for NewPane (with a run command) and Edit, the produced
working-directory field is always `some`; when the command supplies no
override it is exactly the directory returned by the provider. -/
theorem c10_cwd_always_some :
    (∀ (direction : Option Direction) (file : PathBuf) (ln : Option Nat)
        (floating : Bool) (q : Option PathBuf) (f : Unit → PathBuf)
        (cfg : Option Config) (L : LayoutLoader) (dd : Option PathBuf),
        ∃ file2 d,
        Action.actions_from_cli (CliAction.Edit direction file ln floating q) f cfg
            L dd
          = Except.ok [Action.EditFile file2 ln (some d) direction floating])
    ∧ (∀ (direction : Option Direction) (c0 : String) (args : List String)
        (q : Option PathBuf) (floating : Bool) (name : Option String) (ce ss : Bool)
        (f : Unit → PathBuf) (cfg : Option Config) (L : LayoutLoader)
        (dd : Option PathBuf), ∃ d,
        Action.actions_from_cli
            (CliAction.NewPane direction (c0 :: args) none q floating name ce ss)
            f cfg L dd
          = Except.ok [if floating then
                Action.NewFloatingPane
                  (some { command := c0, args := args, cwd := some d,
                          direction := direction, hold_on_close := !ce,
                          hold_on_start := ss }) name
              else
                Action.NewTiledPane direction
                  (some { command := c0, args := args, cwd := some d,
                          direction := direction, hold_on_close := !ce,
                          hold_on_start := ss }) name])
    ∧ (∀ (direction : Option Direction) (file : PathBuf) (ln : Option Nat)
        (floating : Bool) (f : Unit → PathBuf) (cfg : Option Config)
        (L : LayoutLoader) (dd : Option PathBuf),
        Action.actions_from_cli (CliAction.Edit direction file ln floating none) f
            cfg L dd
          = Except.ok [Action.EditFile
              (if PathBuf.isRelative file then PathBuf.join (f ()) file else file)
              ln (some (f ())) direction floating])
    ∧ (∀ (direction : Option Direction) (c0 : String) (args : List String)
        (floating : Bool) (name : Option String) (ce ss : Bool)
        (f : Unit → PathBuf) (cfg : Option Config) (L : LayoutLoader)
        (dd : Option PathBuf),
        Action.actions_from_cli
            (CliAction.NewPane direction (c0 :: args) none none floating name ce ss)
            f cfg L dd
          = Except.ok [if floating then
                Action.NewFloatingPane
                  (some { command := c0, args := args, cwd := some (f ()),
                          direction := direction, hold_on_close := !ce,
                          hold_on_start := ss }) name
              else
                Action.NewTiledPane direction
                  (some { command := c0, args := args, cwd := some (f ()),
                          direction := direction, hold_on_close := !ce,
                          hold_on_start := ss }) name]) := by
  refine ⟨?_, ?_, ?_, ?_⟩
  · intro direction file ln floating q f cfg L dd
    cases q <;> exact ⟨_, _, rfl⟩
  · intro direction c0 args q floating name ce ss f cfg L dd
    cases q <;> cases floating <;> exact ⟨_, rfl⟩
  · intro direction file ln floating f cfg L dd
    rfl
  · intro direction c0 args floating name ce ss f cfg L dd
    cases floating <;> rfl

end Zellij
